import Mathlib

/-!
Shallow embedding of the credential/session core of
`oksasatya/go-ddd-clean-architecture`: the distributed rate limiter
(`internal/interface/middleware`, the Lua `incrExpireScript` and the
`RateLimit` middleware), the session-validation `Auth` middleware, the
token/session service (`internal/application/user_service.go`:
`Authenticate`, `IssueTokens`, `Login`, `Refresh`), the OTP login handlers
(`internal/interface/http/user_handler.go`: `Login`, `LoginOTPConfirm`)
and the OTP code generator (`pkg/helpers/otp.go`: `GenOTPCode`).

Machine integers are modelled as `Nat`/`Int` (Go `int` is 64-bit here),
time as a millisecond clock passed explicitly, and the Redis store as
explicit finite state with an availability flag; an unreachable store
makes every store operation fail, mirroring a Redis client error.
-/

namespace GoDDD

/-! ## Rate limiter store (Redis keys touched by `incrExpireScript`)

A rate-limit key holds an integer counter and an absolute expiry deadline
in milliseconds (`PEXPIRE` semantics).  A key whose deadline has passed
behaves as absent: `INCR` on it recreates it at 1. -/

structure RLStore where
  avail : Bool
  entries : String → Option (Nat × Nat)

/-- An entry is live at `now` when it exists and its deadline is in the future. -/
def RLStore.live (st : RLStore) (key : String) (now : Nat) : Option (Nat × Nat) :=
  match st.entries key with
  | none => none
  | some (c, dl) => if now < dl then some (c, dl) else none

def RLStore.set (st : RLStore) (key : String) (v : Nat × Nat) : RLStore :=
  ⟨st.avail, fun k => if k = key then some v else st.entries k⟩

/-- The Lua script `incrExpireScript`:
`local current = redis.call("INCR", KEYS[1])`
`if current == 1 then redis.call("PEXPIRE", KEYS[1], ARGV[1]) end`
`return current`
run as one atomic step.  `INCR` on a missing (or expired, hence gone) key
creates it with value 1; the expiry is attached in the same step exactly
when the increment produced 1.  When the store is unreachable the call
fails, modelling a Redis client error. -/
def incrExpireScript (st : RLStore) (key : String) (windowMs : Nat) (now : Nat) :
    Except Unit (Nat × RLStore) :=
  if st.avail then
    match st.live key now with
    | none => .ok (1, st.set key (1, now + windowMs))
    | some (c, dl) => .ok (c + 1, st.set key (c + 1, dl))
  else
    .error ()

/-- `rdb.TTL(ctx, key)` in milliseconds: remaining lifetime of a live key. -/
def RLStore.pttl (st : RLStore) (key : String) (now : Nat) : Option Nat :=
  match st.live key now with
  | none => none
  | some (_, dl) => some (dl - now)

/-! ## The `RateLimit` middleware -/

/-- Rate-limit response headers as set by the middleware
(`X-RateLimit-Limit`, `X-RateLimit-Remaining`, `X-RateLimit-Reset`).
`remaining = max - count` is Go `int` arithmetic and may be negative. -/
structure RLHeaders where
  limit : Int
  remaining : Int
  reset : Nat
  deriving DecidableEq

inductive RLDecision
  | allowed
  | reject
  deriving DecidableEq

/-- Outcome of one request through the `RateLimit` middleware: the
admit/reject decision, the headers it set (none when it bypassed the
counter), the `Retry-After` value on rejection, whether the counter was
actually incremented, and the store afterwards. -/
structure RLResult where
  decision : RLDecision
  headers : Option RLHeaders
  retryAfter : Option Nat
  counted : Bool
  store : RLStore

/-- `strings.EqualFold` restricted to what the middleware compares it to:
ASCII case-insensitive equality. -/
def eqFold (a b : String) : Bool :=
  a.toList.map Char.toUpper = b.toList.map Char.toUpper

/-- The `RateLimit` middleware
(`RateLimit(rdb, max, window, keyFn, allow)`).  `rdbPresent`/`keyFnPresent`
model the `rdb == nil` / `keyFn == nil` checks, `allowBypass` the result of
the optional `allow(c)` call (false when `allow` is nil), `method` the HTTP
method, `key` the value produced by `keyFn(c)`, `windowMs` is
`window.Milliseconds()`.  Mirrors the source line by line:
misconfiguration yields a no-op handler; allowlisted and OPTIONS requests
skip the counter; a store error fails open; otherwise headers are set from
the incremented count and the request is rejected iff `count > max`. -/
def RateLimit (rdbPresent : Bool) (max : Int) (windowMs : Int)
    (keyFnPresent : Bool) (allowBypass : Bool) (method key : String)
    (st : RLStore) (now : Nat) : RLResult :=
  if rdbPresent = false ∨ max ≤ 0 ∨ windowMs ≤ 0 ∨ keyFnPresent = false then
    -- `return func(c *gin.Context) { c.Next() }`
    ⟨.allowed, none, none, false, st⟩
  else if allowBypass then
    ⟨.allowed, none, none, false, st⟩
  else if eqFold method "OPTIONS" then
    ⟨.allowed, none, none, false, st⟩
  else
    match incrExpireScript st key windowMs.toNat now with
    | .error _ => ⟨.allowed, none, none, false, st⟩ -- fail-open on redis error
    | .ok (count, st') =>
      let resetSec : Nat :=
        match st'.pttl key now with
        | some ms => ms / 1000
        | none => 0
      let hdr : RLHeaders := ⟨max, max - (count : Int), resetSec⟩
      if (count : Int) > max then
        ⟨.reject, some hdr, if resetSec > 0 then some resetSec else none, true, st'⟩
      else
        ⟨.allowed, some hdr, none, true, st'⟩

/-- Run `n` sequential requests through the middleware at the given
timestamps, returning the final store (earlier elements of `times` are
earlier calls). -/
def runCalls (max windowMs : Int) (key : String) (st : RLStore) :
    List Nat → RLStore
  | [] => st
  | t :: ts =>
      runCalls max windowMs key
        (RateLimit true max windowMs true false "GET" key st t).store ts

/-! ## Token codec

Modelled from the spec: the JWT manager variant that embeds a session id
(`JWTManager.GenerateAccessToken(userID, sid)`, `Claims.SessionID`) is not
among the sources — only its callers (`user_service.go`, `auth.go`) are.
Per spec §4.1 a token is an independently signed, tamper-evident claim set
`(principal id, session id, expiry, issued-at)`; `kind` selects the signing
secret and TTL so a token cannot be replayed across kinds; verification
checks signature, kind and expiry and otherwise rejects. -/

inductive TokenKind
  | access
  | refresh
  deriving DecidableEq

structure Claims where
  UserID : String
  SessionID : String
  deriving DecidableEq

/-- A signed token: its claim set, its kind, the secret it was signed
with, and its expiry (ms clock). -/
structure Token where
  claims : Claims
  kind : TokenKind
  sig : String
  exp : Nat
  deriving DecidableEq

structure JWTManager where
  AccessSecret : String
  RefreshSecret : String
  AccessTTLms : Nat
  RefreshTTLms : Nat

def JWTManager.GenerateAccessToken (m : JWTManager) (userID sid : String)
    (now : Nat) : Token × Nat :=
  (⟨⟨userID, sid⟩, .access, m.AccessSecret, now + m.AccessTTLms⟩, now + m.AccessTTLms)

def JWTManager.GenerateRefreshToken (m : JWTManager) (userID sid : String)
    (now : Nat) : Token × Nat :=
  (⟨⟨userID, sid⟩, .refresh, m.RefreshSecret, now + m.RefreshTTLms⟩, now + m.RefreshTTLms)

/-- Verification: right secret, right kind, not expired; otherwise reject. -/
def parseToken (t : Token) (secret : String) (kind : TokenKind) (now : Nat) :
    Option Claims :=
  if t.sig = secret ∧ t.kind = kind ∧ now < t.exp then some t.claims else none

def JWTManager.ParseAccessToken (m : JWTManager) (t : Token) (now : Nat) :
    Option Claims :=
  parseToken t m.AccessSecret .access now

def JWTManager.ParseRefreshToken (m : JWTManager) (t : Token) (now : Nat) :
    Option Claims :=
  parseToken t m.RefreshSecret .refresh now

/-! ## Session / OTP / trusted-device store

The Redis state touched by the user service and handlers, split by key
family.  `sessions` is keyed by `sessionKey uid`, `otp` by
`KeyLoginOTP uid`, `trusted` by `KeyTrustedDevice uid dev`; an absent
entry covers both "never written" and "TTL expired". -/

/-- The session hash written by `IssueTokens` / updated by `Refresh`
(fields `user_id`, `email`, `name`, `avatar_url`, `sid`, `logged_in`,
timestamps; the record holds a single `sid` field). -/
structure SessionRec where
  user_id : String
  email : String
  name : String
  avatar_url : String
  sid : String
  logged_in : Bool
  deriving DecidableEq

def sessionKey (userID : String) : String := "user:session:" ++ userID

/-- `helpers.KeyLoginOTP`. -/
def KeyLoginOTP (uid : String) : String := "login:otp:" ++ uid

/-- `helpers.KeyTrustedDevice`. -/
def KeyTrustedDevice (uid dev : String) : String :=
  "login:trusted:" ++ uid ++ ":" ++ dev

structure RedisState where
  avail : Bool
  sessions : String → Option SessionRec
  otp : String → Option String
  trusted : String → Option String

def updMap (f : String → Option α) (key : String) (v : Option α) :
    String → Option α :=
  fun k => if k = key then v else f k

/-! ## Users and the user service -/

structure User where
  ID : String
  Email : String
  Password : String
  Name : String
  AvatarURL : String
  deriving DecidableEq

/-- `repo.UserRepository` (Postgres-backed, an external collaborator of
the core): lookup by email and by id. -/
structure UserRepo where
  getByEmail : String → Option User
  getByID : String → Option User

/-- The application `Service` with its collaborators.  Password hashing is
an excluded collaborator; `compareHash stored given` stands for
`helpers.CompareHashAndPassword`. -/
structure Service where
  Repo : UserRepo
  JWT : JWTManager
  compareHash : String → String → Bool

inductive SvcErr
  | ErrInvalidCredentials
  | ErrUserNotFound
  deriving DecidableEq

structure TokenPair where
  AccessToken : Token
  AccessTokenExpiry : Nat
  RefreshToken : Token
  RefreshTokenExpiry : Nat
  deriving DecidableEq

/-- `Service.Authenticate`: validates email/password and returns the user
without issuing tokens; any lookup or hash failure collapses to
`ErrInvalidCredentials`. -/
def Service.Authenticate (s : Service) (email password : String) :
    Except SvcErr User :=
  match s.Repo.getByEmail email with
  | none => .error .ErrInvalidCredentials
  | some u =>
    if s.compareHash u.Password password then .ok u
    else .error .ErrInvalidCredentials

/-- `Service.IssueTokens`: generate a fresh session id (`uuid.NewString()`,
supplied here as `sid`), sign access/refresh tokens carrying it, and write
the session hash (24h TTL) under `sessionKey u.ID`, overwriting any
previous record. -/
def Service.IssueTokens (s : Service) (st : RedisState) (u : User)
    (sid : String) (now : Nat) : TokenPair × RedisState :=
  let (access, aexp) := s.JWT.GenerateAccessToken u.ID sid now
  let (refresh, rexp) := s.JWT.GenerateRefreshToken u.ID sid now
  let sessRec : SessionRec := ⟨u.ID, u.Email, u.Name, u.AvatarURL, sid, true⟩
  (⟨access, aexp, refresh, rexp⟩,
   { st with sessions := updMap st.sessions (sessionKey u.ID) (some sessRec) })

structure LoginResponse where
  UserID : String
  Email : String
  Name : String
  deriving DecidableEq

/-- `Service.Login` = `Authenticate` then `IssueTokens`. -/
def Service.Login (s : Service) (st : RedisState) (email password sid : String)
    (now : Nat) : Except SvcErr (LoginResponse × TokenPair × RedisState) :=
  match s.Authenticate email password with
  | .error e => .error e
  | .ok u =>
    let (pair, st') := s.IssueTokens st u sid now
    .ok (⟨u.ID, u.Email, u.Name⟩, pair, st')

/-- `Service.GetUserByEmail` (used by the OTP confirm flow). -/
def Service.GetUserByEmail (s : Service) (email : String) :
    Except SvcErr User :=
  match s.Repo.getByEmail email with
  | none => .error .ErrUserNotFound
  | some u => .ok u

/-- `Service.Refresh`: parse the refresh token, look up the user, require
the live session record's `sid` to equal the token's `SessionID`
(`data["sid"] != claims.SessionID` → `ErrInvalidCredentials`), then rotate:
sign a new pair under a fresh session id (`freshSid`) and `HSET` the
record's `sid` (preserving the cached display attributes), resetting the
24h TTL. -/
def Service.Refresh (s : Service) (st : RedisState) (refreshToken : Token)
    (freshSid : String) (now : Nat) :
    Except SvcErr (TokenPair × String × RedisState) :=
  match s.JWT.ParseRefreshToken refreshToken now with
  | none => .error .ErrInvalidCredentials
  | some claims =>
    match s.Repo.getByID claims.UserID with
    | none => .error .ErrInvalidCredentials
    | some u =>
      match (if st.avail then .ok (st.sessions (sessionKey u.ID))
             else .error () : Except Unit (Option SessionRec)) with
      | .error _ => .error .ErrInvalidCredentials
      | .ok none => .error .ErrInvalidCredentials
      | .ok (some r) =>
        if r.sid ≠ claims.SessionID then .error .ErrInvalidCredentials
        else
          let (access, aexp) := s.JWT.GenerateAccessToken u.ID freshSid now
          let (refresh, rexp) := s.JWT.GenerateRefreshToken u.ID freshSid now
          let r' : SessionRec := { r with sid := freshSid }
          .ok (⟨access, aexp, refresh, rexp⟩, u.ID,
               { st with sessions := updMap st.sessions (sessionKey u.ID) (some r') })

/-! ## The `Auth` middleware (session-validation gate) -/

/-- What an aborted or passing `Auth` middleware run looks like to the
caller: either a rejection with an HTTP status and message, or success
with the context values it sets. -/
inductive AuthOutcome
  | unauthorized (status : Nat) (msg : String)
  | ok (userID userName userEmail : String)
  deriving DecidableEq

/-- `middleware.Auth(rdb, jwt)`: read the `access_token` cookie, parse it,
`HGETALL` the session hash, reject when the store call fails or the hash
is empty (`"session not found"`), reject when the stored `sid` differs
from the token's (`"session expired"`), otherwise pass with the cached
display attributes.  A store error and an absent record take the same
branch: the gate fails closed. -/
def Auth (jwt : JWTManager) (st : RedisState) (accessCookie : Option Token)
    (now : Nat) : AuthOutcome :=
  match accessCookie with
  | none => .unauthorized 401 "missing access token"
  | some tok =>
    match jwt.ParseAccessToken tok now with
    | none => .unauthorized 401 "invalid access token"
    | some claims =>
      match (if st.avail then .ok (st.sessions (sessionKey claims.UserID))
             else .error () : Except Unit (Option SessionRec)) with
      | .error _ => .unauthorized 401 "session not found"
      | .ok none => .unauthorized 401 "session not found"
      | .ok (some r) =>
        if r.sid = "" ∨ r.sid ≠ claims.SessionID then
          .unauthorized 401 "session expired"
        else
          .ok r.user_id r.name r.email

/-! ## OTP code generation (`helpers.GenOTPCode`) -/

/-- `GenOTPCode` body after `rand.Read` filled four bytes: Go's
`int(b[0])<<24 | int(b[1])<<16 | int(b[2])<<8 | int(b[3])` on a 64-bit
`int`, which is non-negative and below 2^32, so the `if n < 0` branch
never fires; then `n % 1000000`, rendered by `fmt.Sprintf("%06d", code)`.
For any value below 10^6 that format is its six decimal digits, leading
zeros included, which `fmt06` spells out digit by digit. -/
def fmt06 (code : Nat) : String :=
  String.mk
    [Char.ofNat (48 + code / 100000 % 10),
     Char.ofNat (48 + code / 10000 % 10),
     Char.ofNat (48 + code / 1000 % 10),
     Char.ofNat (48 + code / 100 % 10),
     Char.ofNat (48 + code / 10 % 10),
     Char.ofNat (48 + code % 10)]

def GenOTPCode (b0 b1 b2 b3 : Nat) : String :=
  let n : Nat := b0 <<< 24 ||| b1 <<< 16 ||| b2 <<< 8 ||| b3
  let code := n % 1000000
  fmt06 code

/-- Numeric value of a 6-character digit string (base-10 reading),
used to state which value an OTP string represents. -/
def otpValue (s : String) : Nat :=
  s.toList.foldl (fun acc c => acc * 10 + (c.toNat - 48)) 0

/-! ## The HTTP handlers (`user_handler.go`) -/

/-- Go's `strings.TrimSpace` cuts leading and trailing characters for
which `unicode.IsSpace` holds: space, `\t`..`\r`, NEL, NBSP and the
Unicode White_Space code points, written here by code point. -/
def goIsSpace (c : Char) : Bool :=
  c.toNat = 32 ∨ (9 ≤ c.toNat ∧ c.toNat ≤ 13) ∨ c.toNat = 0x85 ∨
  c.toNat = 0xA0 ∨ c.toNat = 0x1680 ∨
  (0x2000 ≤ c.toNat ∧ c.toNat ≤ 0x200A) ∨ c.toNat = 0x2028 ∨
  c.toNat = 0x2029 ∨ c.toNat = 0x202F ∨ c.toNat = 0x205F ∨ c.toNat = 0x3000

def goTrimSpace (s : String) : String :=
  String.mk (((s.toList.dropWhile goIsSpace).reverse.dropWhile goIsSpace).reverse)

/-- The handler's regexp check `^[0-9]{6}$`: exactly six ASCII digits
(code points 48..57). -/
def isSixDigits (s : String) : Bool :=
  s.toList.length = 6 ∧ s.toList.all (fun c => 48 ≤ c.toNat ∧ c.toNat ≤ 57)

/-- HTTP-visible outcome of a handler: status, message, the token pair set
as `access_token`/`refresh_token` cookies (none when no auth cookies were
set), and the `device_id` cookie if one was set. -/
structure HttpResult where
  status : Nat
  message : String
  setAuthCookies : Option TokenPair
  setDeviceCookie : Option String
  deriving DecidableEq

/-- Storage operations the confirm handler may perform, in order:
the Postgres principal lookup, the OTP `GET`, the OTP `DEL`, the session
write inside `IssueTokens`, the trusted-device `SET`. -/
inductive StorageOp
  | userLookup
  | otpGet
  | otpDel
  | sessionWrite
  | trustedSet
  deriving DecidableEq

/-- Result of a login or OTP-confirm handler run: the HTTP response, the
store afterwards, the token pair `Svc` produced internally during the run
(whether or not it was delivered), and the storage operations performed. -/
structure HandlerResult where
  res : HttpResult
  state : RedisState
  producedPair : Option TokenPair
  trace : List StorageOp

/-- `UserHandler.Login`: bind the payload (assumed well-formed here), call
`Svc.Login` — which authenticates and, on success, ISSUES TOKENS AND
WRITES THE SESSION RECORD — then check the `device_id` cookie against the
trusted-device store; a trusted caller gets the pair as cookies, an
untrusted one gets `202 "otp required"` with a fresh OTP code stored for
10 minutes and mailed out-of-band, and no auth cookies.  `freshSid` is the
`uuid.NewString()` inside `IssueTokens`, `freshCode` the `GenOTPCode`
result. -/
def handlerLogin (s : Service) (st : RedisState) (email password : String)
    (deviceCookie : Option String) (freshSid freshCode : String)
    (now : Nat) : HandlerResult :=
  match s.Login st email password freshSid now with
  | .error _ =>
    ⟨⟨401, "invalid credentials", none, none⟩, st, none, [.userLookup]⟩
  | .ok (u, pair, st') =>
    -- `deviceID, _ := c.Cookie("device_id")`; missing cookie reads as "".
    let deviceID := deviceCookie.getD ""
    let trusted :=
      deviceID ≠ "" ∧ st'.trusted (KeyTrustedDevice u.UserID deviceID) = some "1"
    if trusted then
      ⟨⟨200, "login successful", some pair, none⟩, st', some pair,
       [.userLookup, .sessionWrite]⟩
    else
      let st'' :=
        { st' with otp := updMap st'.otp (KeyLoginOTP u.UserID) (some freshCode) }
      ⟨⟨202, "otp required", none, none⟩, st'', some pair,
       [.userLookup, .sessionWrite]⟩

/-- `UserHandler.LoginOTPConfirm`: trim the submitted code, reject
non-6-digit input before touching storage, look up the principal by email
(`"invalid code"` when absent), `GET` the stored OTP (`"invalid or expired
code"` when absent or mismatched), then consume the challenge with `DEL`,
issue tokens, optionally mint a trusted device (`remember_device`), and
set the auth cookies.  `freshSid` and `freshDev` stand for the random
session id and device id generated on the success path. -/
def handlerLoginOTPConfirm (s : Service) (st : RedisState)
    (email code : String) (rememberDevice : Bool)
    (freshSid freshDev : String) (now : Nat) : HandlerResult :=
  let code' := goTrimSpace code
  if ¬ isSixDigits code' then
    ⟨⟨401, "invalid or expired code", none, none⟩, st, none, []⟩
  else
    match s.GetUserByEmail email with
    | .error _ =>
      ⟨⟨401, "invalid code", none, none⟩, st, none, [.userLookup]⟩
    | .ok u =>
      match st.otp (KeyLoginOTP u.ID) with
      | none =>
        ⟨⟨401, "invalid or expired code", none, none⟩, st, none,
         [.userLookup, .otpGet]⟩
      | some stored =>
        if stored ≠ code' then
          ⟨⟨401, "invalid or expired code", none, none⟩, st, none,
           [.userLookup, .otpGet]⟩
        else
          let st1 := { st with otp := updMap st.otp (KeyLoginOTP u.ID) none }
          let (pair, st2) := s.IssueTokens st1 u freshSid now
          if rememberDevice then
            let st3 :=
              { st2 with
                trusted := updMap st2.trusted (KeyTrustedDevice u.ID freshDev)
                  (some "1") }
            ⟨⟨200, "login successful", some pair, some freshDev⟩, st3, some pair,
             [.userLookup, .otpGet, .otpDel, .sessionWrite, .trustedSet]⟩
          else
            ⟨⟨200, "login successful", some pair, none⟩, st2, some pair,
             [.userLookup, .otpGet, .otpDel, .sessionWrite]⟩

/-! ## Helper lemmas -/

theorem eqFold_get_options : eqFold "GET" "OPTIONS" = false := by decide

/-- On a valid configuration, a plain `GET` with no allowlist bypass whose
key is live with counter `c` and deadline `dl` increments the counter and
leaves the deadline untouched. -/
theorem RateLimit_store_of_live (st : RLStore) (key : String) (maxR w : Int)
    (now c dl : Nat) (hmax : 0 < maxR) (hw : 0 < w) (hav : st.avail = true)
    (hent : st.entries key = some (c, dl)) (hlt : now < dl) :
    (RateLimit true maxR w true false "GET" key st now).store =
      st.set key (c + 1, dl) := by
  have hlive : st.live key now = some (c, dl) := by
    simp [RLStore.live, hent, hlt]
  have hscript : incrExpireScript st key w.toNat now =
      .ok (c + 1, st.set key (c + 1, dl)) := by
    simp [incrExpireScript, hav, hlive]
  simp only [RateLimit, eqFold_get_options, hscript]
  rw [if_neg (by simp [hmax.not_le, hw.not_le])]
  simp only [if_false, Bool.false_eq_true]
  split <;> rfl

/-- On a valid configuration, a plain `GET` with no bypass on a key that is
absent (or expired) creates it with count 1 and deadline `now + window` in
the same step. -/
theorem RateLimit_store_of_fresh (st : RLStore) (key : String) (maxR w : Int)
    (now : Nat) (hmax : 0 < maxR) (hw : 0 < w) (hav : st.avail = true)
    (hlive : st.live key now = none) :
    (RateLimit true maxR w true false "GET" key st now).store =
      st.set key (1, now + w.toNat) := by
  have hscript : incrExpireScript st key w.toNat now =
      .ok (1, st.set key (1, now + w.toNat)) := by
    simp [incrExpireScript, hav, hlive]
  simp only [RateLimit, eqFold_get_options, hscript]
  rw [if_neg (by simp [hmax.not_le, hw.not_le])]
  simp only [if_false, Bool.false_eq_true]
  split <;> rfl

theorem RLStore.set_avail (st : RLStore) (key : String) (v : Nat × Nat) :
    (st.set key v).avail = st.avail := rfl

theorem RLStore.set_entries_self (st : RLStore) (key : String) (v : Nat × Nat) :
    (st.set key v).entries key = some v := by
  simp [RLStore.set]

/-- A run of calls on a live key only increments its counter: the deadline
is never touched. -/
theorem runCalls_live (maxR w : Int) (key : String) (hmax : 0 < maxR)
    (hw : 0 < w) :
    ∀ (ts : List Nat) (st : RLStore) (c dl : Nat),
      st.avail = true → st.entries key = some (c, dl) →
      (∀ t ∈ ts, t < dl) →
      (runCalls maxR w key st ts).avail = true ∧
      (runCalls maxR w key st ts).entries key = some (c + ts.length, dl)
  | [], st, c, dl, hav, hent, _ => by simpa [runCalls] using ⟨hav, hent⟩
  | t :: ts, st, c, dl, hav, hent, hts => by
    have hst := RateLimit_store_of_live st key maxR w t c dl hmax hw hav hent
      (hts t (by simp))
    have ih := runCalls_live maxR w key hmax hw ts (st.set key (c + 1, dl))
      (c + 1) dl (by rw [RLStore.set_avail]; exact hav)
      (RLStore.set_entries_self st key (c + 1, dl))
      (fun t' ht' => hts t' (by simp [ht']))
    rw [runCalls, hst]
    refine ⟨ih.1, ?_⟩
    rw [ih.2, List.length_cons]
    have harith : c + 1 + ts.length = c + (ts.length + 1) := by omega
    rw [harith]

/-! ## Claim theorems: rate limiter -/

/-- C3: the increment that creates a rate-limit key (count becoming 1)
attaches the expiry in the same atomic script step, with TTL equal to the
configured window, and later increments within the window never touch the
deadline: after the first call the entry is `(1, t0 + window)` with
measured TTL exactly the window, and after any schedule of further calls
inside the window the deadline is still `t0 + window` with only the
counter grown. -/
theorem rl_expiry_set_once_never_refreshed (st : RLStore) (key : String)
    (maxR w : Int) (t0 : Nat) (ts : List Nat)
    (hmax : 0 < maxR) (hw : 0 < w) (hav : st.avail = true)
    (hfresh : st.live key t0 = none)
    (hts : ∀ t ∈ ts, t < t0 + w.toNat) :
    ((RateLimit true maxR w true false "GET" key st t0).store.entries key =
        some (1, t0 + w.toNat)) ∧
    ((RateLimit true maxR w true false "GET" key st t0).store.pttl key t0 =
        some w.toNat) ∧
    ((runCalls maxR w key
        (RateLimit true maxR w true false "GET" key st t0).store ts).entries key =
        some (1 + ts.length, t0 + w.toNat)) := by
  have hst := RateLimit_store_of_fresh st key maxR w t0 hmax hw hav hfresh
  have hwpos : 0 < w.toNat := by omega
  have hent : (st.set key (1, t0 + w.toNat)).entries key =
      some (1, t0 + w.toNat) := RLStore.set_entries_self _ _ _
  refine ⟨by rw [hst]; exact hent, ?_, ?_⟩
  · rw [hst]
    simp only [RLStore.pttl, RLStore.live, hent]
    rw [if_pos (by omega)]
    simp
  · have := runCalls_live maxR w key hmax hw ts (st.set key (1, t0 + w.toNat))
      1 (t0 + w.toNat) (by rw [RLStore.set_avail]; exact hav) hent hts
    rw [hst]
    exact this.2

/-- C3 witness: a fresh key under `max = 5`, `window = 60s`; first call at
t=0 creates the entry with TTL 60000 ms, four further calls inside the
window leave the deadline at 60000 while the counter reaches 5. -/
theorem rl_expiry_set_once_never_refreshed_witness :
    ((RateLimit true 5 60000 true false "GET" "k" ⟨true, fun _ => none⟩ 0).store.entries "k" =
        some (1, 0 + (60000 : Int).toNat)) ∧
    ((RateLimit true 5 60000 true false "GET" "k" ⟨true, fun _ => none⟩ 0).store.pttl "k" 0 =
        some (60000 : Int).toNat) ∧
    ((runCalls 5 60000 "k"
        (RateLimit true 5 60000 true false "GET" "k" ⟨true, fun _ => none⟩ 0).store
        [1000, 2000, 3000, 4000]).entries "k" =
        some (1 + [1000, 2000, 3000, 4000].length, 0 + (60000 : Int).toNat)) :=
  rl_expiry_set_once_never_refreshed ⟨true, fun _ => none⟩ "k" 5 60000 0
    [1000, 2000, 3000, 4000] (by decide) (by decide) rfl rfl (by decide)

/-- C4: an invocation that reaches the counter (valid configuration, no
bypass, non-OPTIONS method, script succeeded with the incremented count)
is rejected iff `count > max`, and the reported remaining header equals
`max - count` as (possibly negative) integer arithmetic. -/
theorem rl_reject_iff_over_max (st st' : RLStore) (key method : String)
    (maxR w : Int) (now count : Nat)
    (hmax : 0 < maxR) (hw : 0 < w)
    (hmeth : eqFold method "OPTIONS" = false)
    (hrun : incrExpireScript st key w.toNat now = .ok (count, st')) :
    ((RateLimit true maxR w true false method key st now).decision =
        .reject ↔ maxR < (count : Int)) ∧
    ∃ h, (RateLimit true maxR w true false method key st now).headers = some h ∧
      h.limit = maxR ∧ h.remaining = maxR - (count : Int) := by
  simp only [RateLimit, hmeth, hrun]
  rw [if_neg (by simp [hmax.not_le, hw.not_le])]
  simp only [if_false, Bool.false_eq_true, gt_iff_lt]
  split
  · next hgt => simpa using hgt
  · next hle => simp_all

/-- C4 witness: with `max = 5`, `window = 60s`, five calls at t = 0s..4s
fill the counter; the sixth call at t = 5s (inside the window) increments
to 6, is rejected, and reports remaining `5 - 6 = -1`. -/
theorem rl_reject_iff_over_max_witness :
    ((RateLimit true 5 60000 true false "GET" "k"
        (runCalls 5 60000 "k" ⟨true, fun _ => none⟩ [0, 1000, 2000, 3000, 4000])
        5000).decision = .reject) ∧
    (RateLimit true 5 60000 true false "GET" "k"
        (runCalls 5 60000 "k" ⟨true, fun _ => none⟩ [0, 1000, 2000, 3000, 4000])
        5000).headers = some ⟨5, 5 - ((6 : Nat) : Int), 55⟩ := by
  have h := rl_reject_iff_over_max
    (runCalls 5 60000 "k" ⟨true, fun _ => none⟩ [0, 1000, 2000, 3000, 4000])
    ((runCalls 5 60000 "k" ⟨true, fun _ => none⟩ [0, 1000, 2000, 3000, 4000]).set
      "k" (6, 60000))
    "k" "GET" 5 60000 5000 6 (by decide) (by decide) (by decide) rfl
  exact ⟨h.1.mpr (by decide), rfl⟩

/-- C10: a limiter constructed with a nil client, non-positive max,
non-positive window or nil key function is a no-op — every request is
admitted with no counting, no headers and an untouched store — and,
independently of configuration, an OPTIONS request bypasses the limiter
the same way. -/
theorem rl_noop_on_misconfig_and_options (rdbp kfp allow : Bool)
    (maxR w : Int) (method key : String) (st : RLStore) (now : Nat)
    (hbad : rdbp = false ∨ maxR ≤ 0 ∨ w ≤ 0 ∨ kfp = false) :
    RateLimit rdbp maxR w kfp allow method key st now =
      ⟨.allowed, none, none, false, st⟩ ∧
    ∀ (rdbp2 kfp2 allow2 : Bool) (maxR2 w2 : Int) (key2 : String)
      (st2 : RLStore) (now2 : Nat) (method2 : String),
      eqFold method2 "OPTIONS" = true →
      RateLimit rdbp2 maxR2 w2 kfp2 allow2 method2 key2 st2 now2 =
        ⟨.allowed, none, none, false, st2⟩ := by
  constructor
  · simp only [RateLimit]
    rw [if_pos hbad]
  · intro rdbp2 kfp2 allow2 maxR2 w2 key2 st2 now2 method2 hopt
    simp only [RateLimit, hopt]
    split
    · rfl
    · split
      · rfl
      · rfl

/-- C10 witness: a nil redis client yields the no-op middleware, and an
OPTIONS request on a fully valid configuration is also admitted without
counting or headers. -/
theorem rl_noop_on_misconfig_and_options_witness :
    (RateLimit false 5 60000 true false "GET" "k" ⟨true, fun _ => none⟩ 0 =
      ⟨.allowed, none, none, false, ⟨true, fun _ => none⟩⟩) ∧
    (RateLimit true 5 60000 true false "OPTIONS" "k" ⟨true, fun _ => none⟩ 0 =
      ⟨.allowed, none, none, false, ⟨true, fun _ => none⟩⟩) := by
  have h := rl_noop_on_misconfig_and_options false true false 5 60000 "GET" "k"
    ⟨true, fun _ => none⟩ 0 (Or.inl rfl)
  exact ⟨h.1, h.2 true true false 5 60000 "k" ⟨true, fun _ => none⟩ 0 "OPTIONS"
    (by decide)⟩

/-- C5: opposite unavailability policies.  With the backing store
unreachable, the rate limiter admits the request and leaves the store
untouched (fail open), while the session-validation gate on an
authenticated route — even when presented a well-signed, unexpired access
token — rejects the request as unauthenticated (fail closed).  The token
codec carrying the session id is modelled from spec §4.1. -/
theorem store_down_fail_open_vs_fail_closed
    (st : RLStore) (rst : RedisState) (jwt : JWTManager) (tok : Token)
    (maxR w : Int) (key method : String) (now anow : Nat) (claims : Claims)
    (hmax : 0 < maxR) (hw : 0 < w) (hmeth : eqFold method "OPTIONS" = false)
    (hdownRL : st.avail = false) (hdownS : rst.avail = false)
    (hparse : jwt.ParseAccessToken tok anow = some claims) :
    (RateLimit true maxR w true false method key st now).decision = .allowed ∧
    (RateLimit true maxR w true false method key st now).store = st ∧
    Auth jwt rst (some tok) anow = .unauthorized 401 "session not found" := by
  have hscript : incrExpireScript st key w.toNat now = .error () := by
    simp [incrExpireScript, hdownRL]
  refine ⟨?_, ?_, ?_⟩
  · simp only [RateLimit, hmeth, hscript]
    rw [if_neg (by simp [hmax.not_le, hw.not_le])]
    rfl
  · simp only [RateLimit, hmeth, hscript]
    rw [if_neg (by simp [hmax.not_le, hw.not_le])]
    rfl
  · simp [Auth, hparse, hdownS]

/-- C5 witness: a concrete down store, a valid access token for principal
`u1`; the limiter admits, the auth gate rejects with 401 "session not
found". -/
theorem store_down_fail_open_vs_fail_closed_witness :
    (RateLimit true 5 60000 true false "GET" "k" ⟨false, fun _ => none⟩ 0).decision =
        .allowed ∧
    (RateLimit true 5 60000 true false "GET" "k" ⟨false, fun _ => none⟩ 0).store =
        ⟨false, fun _ => none⟩ ∧
    Auth ⟨"asec", "rsec", 3600000, 604800000⟩
        ⟨false, fun _ => none, fun _ => none, fun _ => none⟩
        (some ⟨⟨"u1", "sid1"⟩, .access, "asec", 99999⟩) 0 =
      .unauthorized 401 "session not found" :=
  store_down_fail_open_vs_fail_closed ⟨false, fun _ => none⟩
    ⟨false, fun _ => none, fun _ => none, fun _ => none⟩
    ⟨"asec", "rsec", 3600000, 604800000⟩ ⟨⟨"u1", "sid1"⟩, .access, "asec", 99999⟩
    5 60000 "k" "GET" 0 0 ⟨"u1", "sid1"⟩
    (by decide) (by decide) (by decide) rfl rfl (by decide)

/-! ## Claim theorems: session rotation (C2) -/

theorem parseToken_some {t : Token} {secret : String} {kind : TokenKind}
    {now : Nat} {c : Claims} (h : parseToken t secret kind now = some c) :
    c = t.claims := by
  unfold parseToken at h
  split at h
  · exact (Option.some.inj h).symm
  · cases h

/-- A refresh presented with a token whose embedded session id differs
from the live record's `sid` is rejected as `ErrInvalidCredentials`.
`repoOK` says the user repository returns records under their own primary
key. -/
theorem Refresh_error_of_sid_mismatch (s : Service)
    (repoOK : ∀ i v, s.Repo.getByID i = some v → v.ID = i)
    (st : RedisState) (tok : Token) (sid : String) (now : Nat)
    (r : SessionRec) (hav : st.avail = true)
    (hsess : st.sessions (sessionKey tok.claims.UserID) = some r)
    (hneq : r.sid ≠ tok.claims.SessionID) :
    s.Refresh st tok sid now = .error .ErrInvalidCredentials := by
  unfold Service.Refresh
  cases hp : s.JWT.ParseRefreshToken tok now with
  | none => simp [hp]
  | some c =>
    have hc : c = tok.claims := parseToken_some hp
    subst hc
    simp only [hp]
    cases hid : s.Repo.getByID tok.claims.UserID with
    | none => simp [hid]
    | some u =>
      have huid : u.ID = tok.claims.UserID := repoOK _ _ hid
      simp only [hid, huid, hav, if_true, hsess]
      rw [if_pos hneq]

/-- C2: the session record holds a single `sid`, overwritten on each
issuance, so after a login or refresh exactly one session id is live; a
refresh whose token carries a session id different from the live one is
rejected with `ErrInvalidCredentials` and yields no tokens; and in
particular, after a successful refresh rotated the session id, the
previously used refresh token fails on any subsequent use.  The token
codec carrying the session id is modelled from spec §4.1. -/
theorem session_single_sid_rotation (s : Service)
    (repoOK : ∀ i v, s.Repo.getByID i = some v → v.ID = i) :
    (∀ (st : RedisState) (u : User) (sid : String) (now : Nat),
      ((s.IssueTokens st u sid now).2).sessions (sessionKey u.ID) =
        some ⟨u.ID, u.Email, u.Name, u.AvatarURL, sid, true⟩) ∧
    (∀ (st : RedisState) (tok : Token) (sid : String) (now : Nat)
       (r : SessionRec), st.avail = true →
      st.sessions (sessionKey tok.claims.UserID) = some r →
      r.sid ≠ tok.claims.SessionID →
      s.Refresh st tok sid now = .error .ErrInvalidCredentials) ∧
    (∀ (st st1 : RedisState) (tok0 : Token) (sid1 : String) (now : Nat)
       (pair : TokenPair) (uid : String),
      s.Refresh st tok0 sid1 now = .ok (pair, uid, st1) →
      sid1 ≠ tok0.claims.SessionID →
      ∀ (sid2 : String) (now2 : Nat),
        s.Refresh st1 tok0 sid2 now2 = .error .ErrInvalidCredentials) := by
  refine ⟨?_, ?_, ?_⟩
  · intro st u sid now
    simp [Service.IssueTokens, JWTManager.GenerateAccessToken,
      JWTManager.GenerateRefreshToken, updMap]
  · intro st tok sid now r hav hsess hneq
    exact Refresh_error_of_sid_mismatch s repoOK st tok sid now r hav hsess hneq
  · intro st st1 tok0 sid1 now pair uid hok hfresh sid2 now2
    unfold Service.Refresh at hok
    cases hp : s.JWT.ParseRefreshToken tok0 now with
    | none => simp [hp] at hok
    | some c =>
      have hc : c = tok0.claims := parseToken_some hp
      subst hc
      simp only [hp] at hok
      cases hid : s.Repo.getByID tok0.claims.UserID with
      | none => simp [hid] at hok
      | some u =>
        have huid : u.ID = tok0.claims.UserID := repoOK _ _ hid
        simp only [hid] at hok
        by_cases hav : st.avail = true
        · simp only [hav, if_true] at hok
          cases hsess : st.sessions (sessionKey u.ID) with
          | none => simp [hsess] at hok
          | some r =>
            simp only [hsess] at hok
            by_cases hsid : r.sid ≠ tok0.claims.SessionID
            · rw [if_pos hsid] at hok; cases hok
            · rw [if_neg hsid] at hok
              simp only [JWTManager.GenerateAccessToken,
                JWTManager.GenerateRefreshToken, Except.ok.injEq,
                Prod.mk.injEq] at hok
              obtain ⟨hpair, huid2, hst1⟩ := hok
              refine Refresh_error_of_sid_mismatch s repoOK st1 tok0 sid2 now2
                ({ r with sid := sid1 }) ?_ ?_ ?_
              · rw [← hst1]
              · rw [← hst1]
                simp only [← huid]
                simp [updMap]
              · simpa using hfresh
        · simp only [Bool.not_eq_true] at hav
          simp [hav] at hok

/-! ## Concrete fixtures for witnesses and counterexamples -/

def user1 : User := ⟨"u1", "alice@example.com", "hashpw", "Alice", "av"⟩

def repo1 : UserRepo :=
  ⟨fun e => if e = "alice@example.com" then some user1 else none,
   fun i => if i = "u1" then some user1 else none⟩

def jwt1 : JWTManager := ⟨"asec", "rsec", 3600000, 604800000⟩

def svc1 : Service := ⟨repo1, jwt1, fun h p => h == "hashpw" && p == "pw"⟩

def emptyStore : RedisState := ⟨true, fun _ => none, fun _ => none, fun _ => none⟩

def sess0 : SessionRec := ⟨"u1", "alice@example.com", "Alice", "av", "sid0", true⟩

def stSess : RedisState :=
  ⟨true, fun k => if k = sessionKey "u1" then some sess0 else none,
   fun _ => none, fun _ => none⟩

def rtok0 : Token := ⟨⟨"u1", "sid0"⟩, .refresh, "rsec", 100000⟩

def pairRot : TokenPair :=
  ⟨⟨⟨"u1", "sid1"⟩, .access, "asec", 3600000⟩, 3600000,
   ⟨⟨"u1", "sid1"⟩, .refresh, "rsec", 604800000⟩, 604800000⟩

def stRot : RedisState :=
  { stSess with
    sessions := updMap stSess.sessions (sessionKey "u1")
      (some { sess0 with sid := "sid1" }) }

theorem repo1_ok : ∀ i v, repo1.getByID i = some v → v.ID = i := by
  intro i v h
  by_cases hi : i = "u1"
  · subst hi
    simp [repo1] at h
    simp [← h, user1]
  · simp [repo1, hi] at h

/-- C2 witness: issuing tokens for Alice writes her single session record,
and after a refresh rotated `sid0` to `sid1`, the old refresh token (still
well-signed and unexpired, embedding `sid0`) is rejected. -/
theorem session_single_sid_rotation_witness :
    (((svc1.IssueTokens emptyStore user1 "sidA" 0).2).sessions (sessionKey "u1") =
      some ⟨"u1", "alice@example.com", "Alice", "av", "sidA", true⟩) ∧
    svc1.Refresh stRot rtok0 "sid2" 0 = .error .ErrInvalidCredentials := by
  have h := session_single_sid_rotation svc1 repo1_ok
  refine ⟨h.1 emptyStore user1 "sidA" 0, ?_⟩
  exact h.2.2 stSess stRot rtok0 "sid1" 0 pairRot "u1" rfl (by decide) "sid2" 0

/-! ## Claim theorems: login with unknown device (C1) -/

/-- C1 counterexample: Alice logs in with correct credentials and no
`device_id` cookie (unknown device).  The response is challenge-pending
(202, "otp required") and no auth cookies are set — but a session record
HAS been minted under her key and a token pair HAS been produced
internally, because the handler calls `Svc.Login` (which runs
`IssueTokens`) before the trusted-device check.  This refutes the claim
that no token is produced and no session is minted until the OTP is
confirmed. -/
theorem login_untrusted_counterexample :
    (handlerLogin svc1 emptyStore "alice@example.com" "pw" none "sid-1" "111111" 0).res.status
        = 202 ∧
    (handlerLogin svc1 emptyStore "alice@example.com" "pw" none "sid-1" "111111" 0).res.message
        = "otp required" ∧
    (handlerLogin svc1 emptyStore "alice@example.com" "pw" none "sid-1" "111111" 0).res.setAuthCookies
        = none ∧
    ((handlerLogin svc1 emptyStore "alice@example.com" "pw" none "sid-1" "111111" 0).state.sessions
        (sessionKey "u1")).isSome = true ∧
    (handlerLogin svc1 emptyStore "alice@example.com" "pw" none "sid-1" "111111" 0).producedPair.isSome
        = true := by
  refine ⟨rfl, rfl, rfl, ?_, rfl⟩
  rfl

/-- C1 (amended): on a login with correct credentials whose device is not
trusted, the handler responds challenge-pending (202, "otp required"),
sets no token cookies for the caller and stores the fresh OTP challenge —
though internally `Svc.Login` has already generated a token pair and
written the session record before the trust decision. -/
theorem login_untrusted_challenge_no_cookies (s : Service) (st st' : RedisState)
    (email password : String) (deviceCookie : Option String)
    (freshSid freshCode : String) (now : Nat) (u : LoginResponse)
    (pair : TokenPair)
    (hlogin : s.Login st email password freshSid now = .ok (u, pair, st'))
    (huntrusted : deviceCookie.getD "" = "" ∨
      st'.trusted (KeyTrustedDevice u.UserID (deviceCookie.getD "")) ≠ some "1") :
    (handlerLogin s st email password deviceCookie freshSid freshCode now).res.status
        = 202 ∧
    (handlerLogin s st email password deviceCookie freshSid freshCode now).res.message
        = "otp required" ∧
    (handlerLogin s st email password deviceCookie freshSid freshCode now).res.setAuthCookies
        = none ∧
    (handlerLogin s st email password deviceCookie freshSid freshCode now).res.setDeviceCookie
        = none ∧
    (handlerLogin s st email password deviceCookie freshSid freshCode now).state.otp
        (KeyLoginOTP u.UserID) = some freshCode ∧
    (handlerLogin s st email password deviceCookie freshSid freshCode now).producedPair
        = some pair := by
  have hnot : ¬ (deviceCookie.getD "" ≠ "" ∧
      st'.trusted (KeyTrustedDevice u.UserID (deviceCookie.getD "")) = some "1") := by
    rcases huntrusted with h | h
    · exact fun hc => hc.1 h
    · exact fun hc => h hc.2
  simp only [handlerLogin, hlogin]
  rw [if_neg hnot]
  simp [updMap]

/-- C1 witness: the amended claim at the concrete counterexample input. -/
theorem login_untrusted_challenge_no_cookies_witness :
    (handlerLogin svc1 emptyStore "alice@example.com" "pw" none "sid-1" "111111" 0).res.status
        = 202 ∧
    (handlerLogin svc1 emptyStore "alice@example.com" "pw" none "sid-1" "111111" 0).res.message
        = "otp required" ∧
    (handlerLogin svc1 emptyStore "alice@example.com" "pw" none "sid-1" "111111" 0).res.setAuthCookies
        = none ∧
    (handlerLogin svc1 emptyStore "alice@example.com" "pw" none "sid-1" "111111" 0).res.setDeviceCookie
        = none ∧
    (handlerLogin svc1 emptyStore "alice@example.com" "pw" none "sid-1" "111111" 0).state.otp
        (KeyLoginOTP "u1") = some "111111" ∧
    (handlerLogin svc1 emptyStore "alice@example.com" "pw" none "sid-1" "111111" 0).producedPair
        = some ⟨⟨⟨"u1", "sid-1"⟩, .access, "asec", 3600000⟩, 3600000,
               ⟨⟨"u1", "sid-1"⟩, .refresh, "rsec", 604800000⟩, 604800000⟩ :=
  login_untrusted_challenge_no_cookies svc1 emptyStore _ "alice@example.com" "pw"
    none "sid-1" "111111" 0 ⟨"u1", "alice@example.com", "Alice"⟩
    ⟨⟨⟨"u1", "sid-1"⟩, .access, "asec", 3600000⟩, 3600000,
     ⟨⟨"u1", "sid-1"⟩, .refresh, "rsec", 604800000⟩, 604800000⟩
    rfl (Or.inl rfl)

/-! ## Digit and trim lemmas -/

theorem digit_not_space {c : Char} (h1 : 48 ≤ c.toNat) (h2 : c.toNat ≤ 57) :
    goIsSpace c = false := by
  simp only [goIsSpace, decide_eq_false_iff_not]
  omega

theorem dropWhile_eq_self_of_no_space {l : List Char}
    (h : ∀ c ∈ l, goIsSpace c = false) : l.dropWhile goIsSpace = l := by
  cases l with
  | nil => rfl
  | cons a as => simp [List.dropWhile_cons, h a (by simp)]

/-- A string of six ASCII digits contains no whitespace, so Go's
`TrimSpace` leaves it unchanged. -/
theorem goTrimSpace_of_sixDigits {s : String} (h : isSixDigits s = true) :
    goTrimSpace s = s := by
  have hall : ∀ c ∈ s.toList, goIsSpace c = false := by
    intro c hc
    simp only [isSixDigits, decide_eq_true_eq] at h
    have := h.2
    rw [List.all_eq_true] at this
    have hd := this c hc
    simp only [decide_eq_true_eq] at hd
    exact digit_not_space hd.1 hd.2
  unfold goTrimSpace
  rw [dropWhile_eq_self_of_no_space hall]
  rw [dropWhile_eq_self_of_no_space (by intro c hc; exact hall c (by simpa using hc))]
  rw [List.reverse_reverse]
  cases s
  rfl

/-! ## Claim theorems: OTP confirmation (C6, C7, C9) -/

def stOtp1 : RedisState :=
  ⟨true, fun _ => none,
   fun k => if k = KeyLoginOTP "u1" then some "123456" else none,
   fun _ => none⟩

/-- C6: the OTP confirmation failure causes are NOT all reported with the
same message.  At concrete inputs: an unknown principal with a well-formed
code gets 401 "invalid code", while a known principal with a wrong code
gets 401 "invalid or expired code" — two distinguishable rejections, an
account-enumeration oracle the spec rules out. -/
theorem otp_confirm_enumeration_oracle :
    (handlerLoginOTPConfirm svc1 stOtp1 "ghost@example.com" "123456" false "s" "d" 0).res.status
        = 401 ∧
    (handlerLoginOTPConfirm svc1 stOtp1 "ghost@example.com" "123456" false "s" "d" 0).res.message
        = "invalid code" ∧
    (handlerLoginOTPConfirm svc1 stOtp1 "alice@example.com" "654321" false "s" "d" 0).res.status
        = 401 ∧
    (handlerLoginOTPConfirm svc1 stOtp1 "alice@example.com" "654321" false "s" "d" 0).res.message
        = "invalid or expired code" ∧
    "invalid code" ≠ "invalid or expired code" := by
  refine ⟨rfl, rfl, rfl, rfl, by decide⟩

/-- C7: OTP challenges are single-use.  A confirmation matching the stored
six-digit code succeeds (200, auth cookies set) and deletes the stored
challenge; any second confirmation with the same code then fails with the
generic 401 "invalid or expired code" and sets no cookies. -/
theorem otp_single_use (s : Service) (st : RedisState) (u : User)
    (email code : String) (remember : Bool) (freshSid freshDev : String)
    (now : Nat)
    (hu : s.GetUserByEmail email = .ok u)
    (hotp : st.otp (KeyLoginOTP u.ID) = some code)
    (hsix : isSixDigits code = true) :
    ((handlerLoginOTPConfirm s st email code remember freshSid freshDev now).res.status
        = 200) ∧
    ((handlerLoginOTPConfirm s st email code remember freshSid freshDev now).res.setAuthCookies.isSome
        = true) ∧
    ((handlerLoginOTPConfirm s st email code remember freshSid freshDev now).state.otp
        (KeyLoginOTP u.ID) = none) ∧
    (∀ (remember2 : Bool) (sid2 dev2 : String) (now2 : Nat),
      (handlerLoginOTPConfirm s
          (handlerLoginOTPConfirm s st email code remember freshSid freshDev now).state
          email code remember2 sid2 dev2 now2).res =
        ⟨401, "invalid or expired code", none, none⟩) := by
  have htrim : goTrimSpace code = code := goTrimSpace_of_sixDigits hsix
  have key : ∀ (rem : Bool),
      (handlerLoginOTPConfirm s st email code rem freshSid freshDev now).res.status = 200 ∧
      (handlerLoginOTPConfirm s st email code rem freshSid freshDev now).res.setAuthCookies.isSome = true ∧
      (handlerLoginOTPConfirm s st email code rem freshSid freshDev now).state.otp
        (KeyLoginOTP u.ID) = none := by
    intro rem
    simp only [handlerLoginOTPConfirm, htrim, hsix, hu, hotp, Service.IssueTokens]
    cases rem <;> simp [updMap]
  obtain ⟨st2, hst2, hnone⟩ : ∃ st2,
      (handlerLoginOTPConfirm s st email code remember freshSid freshDev now).state = st2 ∧
      st2.otp (KeyLoginOTP u.ID) = none :=
    ⟨_, rfl, (key remember).2.2⟩
  refine ⟨(key remember).1, (key remember).2.1, (key remember).2.2, ?_⟩
  intro remember2 sid2 dev2 now2
  rw [hst2]
  simp only [handlerLoginOTPConfirm, htrim, hsix, hu, hnone]
  simp

/-- C7 witness: Alice confirms the stored code "123456" with remember
requested; it succeeds once, the challenge is gone, and an immediate
replay of the same code is rejected with the generic message. -/
theorem otp_single_use_witness :
    ((handlerLoginOTPConfirm svc1 stOtp1 "alice@example.com" "123456" true "sidB" "devB" 0).res.status
        = 200) ∧
    ((handlerLoginOTPConfirm svc1 stOtp1 "alice@example.com" "123456" true "sidB" "devB" 0).res.setAuthCookies.isSome
        = true) ∧
    ((handlerLoginOTPConfirm svc1 stOtp1 "alice@example.com" "123456" true "sidB" "devB" 0).state.otp
        (KeyLoginOTP "u1") = none) ∧
    ((handlerLoginOTPConfirm svc1
        (handlerLoginOTPConfirm svc1 stOtp1 "alice@example.com" "123456" true "sidB" "devB" 0).state
        "alice@example.com" "123456" false "s2" "d2" 0).res =
      ⟨401, "invalid or expired code", none, none⟩) := by
  have h := otp_single_use svc1 stOtp1 user1 "alice@example.com" "123456" true
    "sidB" "devB" 0 rfl rfl (by decide)
  exact ⟨h.1, h.2.1, h.2.2.1, h.2.2.2 false "s2" "d2" 0⟩

/-- C9 counterexample: the submitted code " 123456" (leading space, seven
characters, not six ASCII digits) is NOT rejected before storage access:
the handler trims it first, so the principal lookup and the OTP read do
run — in fact the confirmation succeeds outright. -/
theorem otp_format_gate_counterexample :
    isSixDigits " 123456" = false ∧
    (handlerLoginOTPConfirm svc1 stOtp1 "alice@example.com" " 123456" false "s2" "d2" 0).trace
        ≠ [] ∧
    StorageOp.userLookup ∈
      (handlerLoginOTPConfirm svc1 stOtp1 "alice@example.com" " 123456" false "s2" "d2" 0).trace ∧
    StorageOp.otpGet ∈
      (handlerLoginOTPConfirm svc1 stOtp1 "alice@example.com" " 123456" false "s2" "d2" 0).trace ∧
    (handlerLoginOTPConfirm svc1 stOtp1 "alice@example.com" " 123456" false "s2" "d2" 0).res.status
        = 200 := by
  refine ⟨by decide, by decide, by decide, by decide, rfl⟩

/-- C9 (amended): a confirmation whose submitted code, after trimming
surrounding whitespace, is not exactly six ASCII digits is rejected with
the generic 401 before any storage access: no principal lookup, no OTP
read, state untouched. -/
theorem otp_format_reject_no_storage (s : Service) (st : RedisState)
    (email code : String) (remember : Bool) (freshSid freshDev : String)
    (now : Nat) (h : isSixDigits (goTrimSpace code) = false) :
    handlerLoginOTPConfirm s st email code remember freshSid freshDev now =
      ⟨⟨401, "invalid or expired code", none, none⟩, st, none, []⟩ := by
  simp [handlerLoginOTPConfirm, h]

/-- C9 witness: the five-character code "12345" is rejected with an empty
storage trace. -/
theorem otp_format_reject_no_storage_witness :
    handlerLoginOTPConfirm svc1 stOtp1 "alice@example.com" "12345" false "s2" "d2" 0 =
      ⟨⟨401, "invalid or expired code", none, none⟩, stOtp1, none, []⟩ :=
  otp_format_reject_no_storage svc1 stOtp1 "alice@example.com" "12345" false
    "s2" "d2" 0 (by decide)

/-! ## Claim theorems: OTP code generation (C8) -/

theorem char_digit_toNat (d : Nat) (hd : d < 10) :
    (Char.ofNat (48 + d)).toNat = 48 + d := by
  interval_cases d <;> decide

theorem lor4_lt (b0 b1 b2 b3 : Nat) (h0 : b0 < 256) (h1 : b1 < 256)
    (h2 : b2 < 256) (h3 : b3 < 256) :
    (b0 <<< 24 ||| b1 <<< 16 ||| b2 <<< 8 ||| b3) < 2 ^ 32 := by
  have s0 : b0 <<< 24 < 2 ^ 32 := by
    have := Nat.shiftLeft_lt (x := b0) (n := 8) (m := 24) (by omega)
    simpa using this
  have s1 : b1 <<< 16 < 2 ^ 32 := by
    have := Nat.shiftLeft_lt (x := b1) (n := 8) (m := 16) (by omega)
    exact lt_trans this (by norm_num)
  have s2 : b2 <<< 8 < 2 ^ 32 := by
    have := Nat.shiftLeft_lt (x := b2) (n := 8) (m := 8) (by omega)
    exact lt_trans this (by norm_num)
  have s3 : b3 < 2 ^ 32 := by omega
  exact Nat.bitwise_lt (Nat.bitwise_lt (Nat.bitwise_lt s0 s1) s2) s3

theorem fmt06_isSixDigits (code : Nat) : isSixDigits (fmt06 code) = true := by
  have e5 := char_digit_toNat (code / 100000 % 10) (Nat.mod_lt _ (by norm_num))
  have e4 := char_digit_toNat (code / 10000 % 10) (Nat.mod_lt _ (by norm_num))
  have e3 := char_digit_toNat (code / 1000 % 10) (Nat.mod_lt _ (by norm_num))
  have e2 := char_digit_toNat (code / 100 % 10) (Nat.mod_lt _ (by norm_num))
  have e1 := char_digit_toNat (code / 10 % 10) (Nat.mod_lt _ (by norm_num))
  have e0 := char_digit_toNat (code % 10) (Nat.mod_lt _ (by norm_num))
  simp [isSixDigits, fmt06, e5, e4, e3, e2, e1, e0]
  omega

theorem fmt06_value (code : Nat) (h : code < 1000000) :
    otpValue (fmt06 code) = code := by
  have e5 := char_digit_toNat (code / 100000 % 10) (Nat.mod_lt _ (by norm_num))
  have e4 := char_digit_toNat (code / 10000 % 10) (Nat.mod_lt _ (by norm_num))
  have e3 := char_digit_toNat (code / 1000 % 10) (Nat.mod_lt _ (by norm_num))
  have e2 := char_digit_toNat (code / 100 % 10) (Nat.mod_lt _ (by norm_num))
  have e1 := char_digit_toNat (code / 10 % 10) (Nat.mod_lt _ (by norm_num))
  have e0 := char_digit_toNat (code % 10) (Nat.mod_lt _ (by norm_num))
  simp [otpValue, fmt06, e5, e4, e3, e2, e1, e0]
  omega

/-- C8: for any four generator bytes, the produced OTP string passes the
six-ASCII-digit check, reads back as exactly the 32-bit combined value
reduced modulo 1,000,000 (hence lies in [0, 999999]), the combined value
is indeed below 2^32, and the reduction is uniform within tolerance: any
two residues below 1,000,000 have 32-bit preimage counts differing by at
most one. -/
theorem gen_otp_six_digits_mod (b0 b1 b2 b3 : Nat)
    (h0 : b0 < 256) (h1 : b1 < 256) (h2 : b2 < 256) (h3 : b3 < 256) :
    isSixDigits (GenOTPCode b0 b1 b2 b3) = true ∧
    otpValue (GenOTPCode b0 b1 b2 b3) =
      (b0 <<< 24 ||| b1 <<< 16 ||| b2 <<< 8 ||| b3) % 1000000 ∧
    (b0 <<< 24 ||| b1 <<< 16 ||| b2 <<< 8 ||| b3) % 1000000 < 1000000 ∧
    (b0 <<< 24 ||| b1 <<< 16 ||| b2 <<< 8 ||| b3) < 2 ^ 32 ∧
    (∀ c1 c2, c1 < 1000000 → c2 < 1000000 →
      Nat.count (fun n => n ≡ c1 [MOD 1000000]) (2 ^ 32) ≤
        Nat.count (fun n => n ≡ c2 [MOD 1000000]) (2 ^ 32) + 1) := by
  have hm : (b0 <<< 24 ||| b1 <<< 16 ||| b2 <<< 8 ||| b3) % 1000000 < 1000000 :=
    Nat.mod_lt _ (by norm_num)
  have hcount : ∀ c, c < 1000000 →
      Nat.count (fun n => n ≡ c [MOD 1000000]) (2 ^ 32) =
        4294 + if c < 967296 then 1 else 0 := by
    intro c hc
    have := Nat.count_modEq_card (2 ^ 32) (r := 1000000) (by norm_num) c
    rw [this]
    norm_num [Nat.mod_eq_of_lt hc]
  refine ⟨fmt06_isSixDigits _, fmt06_value _ hm, hm,
    lor4_lt b0 b1 b2 b3 h0 h1 h2 h3, ?_⟩
  intro c1 c2 hc1 hc2
  rw [hcount c1 hc1, hcount c2 hc2]
  split_ifs <;> omega

/-- C8 witness: bytes (0, 1, 226, 64) combine to 123456 and yield the
string "123456". -/
theorem gen_otp_six_digits_mod_witness :
    isSixDigits (GenOTPCode 0 1 226 64) = true ∧
    otpValue (GenOTPCode 0 1 226 64) =
      ((0 : Nat) <<< 24 ||| 1 <<< 16 ||| 226 <<< 8 ||| 64) % 1000000 ∧
    ((0 : Nat) <<< 24 ||| 1 <<< 16 ||| 226 <<< 8 ||| 64) % 1000000 < 1000000 ∧
    ((0 : Nat) <<< 24 ||| 1 <<< 16 ||| 226 <<< 8 ||| 64) < 2 ^ 32 ∧
    (Nat.count (fun n => n ≡ 0 [MOD 1000000]) (2 ^ 32) ≤
      Nat.count (fun n => n ≡ 999999 [MOD 1000000]) (2 ^ 32) + 1) ∧
    GenOTPCode 0 1 226 64 = "123456" := by
  have h := gen_otp_six_digits_mod 0 1 226 64 (by decide) (by decide) (by decide)
    (by decide)
  exact ⟨h.1, h.2.1, h.2.2.1, h.2.2.2.1,
    h.2.2.2.2 0 999999 (by decide) (by decide), by decide⟩

end GoDDD
